import Mathlib

/-!
Shallow embedding of `Source/Scene/Primitive.js` (Cesium).

The embedding models the `Primitive` object as a Lean structure, its
per-frame `update` function as a pure state transformer that also reports
the observable effects of a call (GPU resources created, partial buffer
writes, command lists appended to the caller's list, whether the combine
task was handed to the scheduler, and a thrown exception if any), and the
asynchronous combine resolution callbacks as separate state transformers.

External collaborators (WebGL context, shader cache, task processor,
bounding-sphere math) are out of scope per the specification; they are
represented by opaque tokens, by free constructors (`BSphere`), or by
values supplied in `Context`/`FrameState`.  JavaScript heap references to
per-instance attribute records (shared between the id table and the dirty
list) are modelled by a backing store `_attrStore : List AttrRecord`
indexed by natural-number keys.  JavaScript exceptions do not roll back
mutations already performed, so fallible operations return the resulting
state together with an optional error.
-/

/-- `PrimitiveState` enumeration from `Scene/PrimitiveState.js`. -/
inductive PrimitiveState
  | READY
  | COMBINING
  | COMBINED
  | COMPLETE
  | FAILED
deriving DecidableEq, Repr

/-- `SceneMode` enumeration (the modes `update` inspects). -/
inductive SceneMode
  | SCENE2D
  | COLUMBUS_VIEW
  | SCENE3D
  | MORPHING
deriving DecidableEq, Repr

/-- JavaScript exceptions observed by this module: the `DeveloperError`s it
throws itself, and `TypeError`s raised by property access on `undefined`. -/
inductive JsError
  | developerError (message : String)
  | typeError (message : String)
deriving DecidableEq, Repr

/-- GPU-side resources created during `update`, as classified by the spec
(shader programs, vertex arrays/buffers, render states, pick ids). -/
inductive GpuResource
  | pickId (owner : Option Nat)
  | vertexBuffer
  | vertexArray
  | shaderProgram
  | renderState
deriving DecidableEq, Repr

/-- Bounding-sphere values.  The math lives in external collaborators, so
the operations used by `update` are free constructors. -/
inductive BSphere
  | raw (token : Nat)
  | projectedTo2D (b : BSphere) (projection : Nat)
  | clone2D (b : BSphere)
  | union (a b : BSphere)
deriving DecidableEq, Repr

/-- A geometry instance as far as `update` observes it: the opaque `id`
used for picking and per-instance attribute lookup.  (The geometry payload
is deep-cloned into the opaque combine-task request and never otherwise
read by this module.) -/
structure GeometryInstance where
  id : Option Nat
deriving DecidableEq, Repr

/-- A `Material`: identity token plus its `_uniforms` map token. -/
structure Material where
  materialId : Nat
  _uniforms : Nat
deriving DecidableEq, Repr

/-- An `Appearance`: identity token, optional material, and the render
state description passed to `context.createRenderState`.  Shader source
text is an out-of-scope collaborator. -/
structure Appearance where
  appearanceId : Nat
  material : Option Material
  renderState : Nat
deriving DecidableEq, Repr

/-- A combined geometry as consumed by the COMBINED branch of `update`. -/
structure Geometry where
  primitiveType : Nat
  boundingSphere : Option Nat
deriving DecidableEq, Repr

/-- The vertex-array attribute a per-instance attribute record points into
(`index.attribute` in the flush loop). -/
structure VaAttribute where
  componentsPerAttribute : Nat
  sizeInBytes : Nat
  bufferId : Nat
deriving DecidableEq, Repr

/-- One offset/count range of a per-instance attribute
(an element of `attribute.indices`). -/
structure AttrIndex where
  offset : Nat
  count : Nat
  vaAttribute : VaAttribute
deriving DecidableEq, Repr

/-- A per-instance attribute record: current value, its ranges in the
merged vertex buffers, and the dirty flag. -/
structure AttrRecord where
  value : List Int
  indices : List AttrIndex
  dirty : Bool
deriving DecidableEq, Repr

/-- The record produced by `getD` for an out-of-store key (never reached
on well-formed states; mirrors `undefined` property reads yielding inert
defaults in the lemmas). -/
def defaultRecord : AttrRecord :=
  { value := [], indices := [], dirty := false }

/-- `_perInstanceAttributes`: the `{ ids, indices }` object (both fields
absent on the `{}` the constructor installs; present after a combine).
`indices` maps each table position to the instance's name-to-record-key
map. -/
structure PerInstanceTable where
  ids : Option (List Nat)
  indices : Option (List (List (String × Nat)))
deriving DecidableEq, Repr

/-- A draw command.  `owner` (a self-reference) is omitted. -/
structure DrawCommand where
  primitiveType : Nat
  vertexArray : Nat
  renderState : Option Nat
  shaderProgram : Option (List String)
  uniformMap : Option Nat
  modelMatrix : Option Nat
  boundingVolume : Option BSphere
deriving DecidableEq, Repr

/-- A fresh `DrawCommand` as built in the COMBINED branch (renderState,
shaderProgram, uniformMap are set later). -/
def DrawCommand.init (primitiveType vertexArray : Nat) : DrawCommand :=
  { primitiveType := primitiveType
    vertexArray := vertexArray
    renderState := none
    shaderProgram := none
    uniformMap := none
    modelMatrix := none
    boundingVolume := none }

/-- `_commandLists`: the color and pick lists owned by the primitive. -/
structure CommandLists where
  colorList : List DrawCommand
  pickList : List DrawCommand
deriving DecidableEq, Repr

/-- A partial GPU buffer upload performed by the dirty-attribute flush
(`vaAttribute.vertexBuffer.copyFromArrayView(typedArray, offsetInBytes)`). -/
structure BufferWrite where
  bufferId : Nat
  offsetInBytes : Nat
  data : List Int
deriving DecidableEq, Repr

/-- Overwrite `target` with `src` starting at position `pos`
(`typedArray.set(value, pos)`). -/
def overlayAt (target : List Int) (pos : Nat) (src : List Int) : List Int :=
  (List.range target.length).map (fun i =>
    if pos ≤ i ∧ i < pos + src.length then src.getD (i - pos) 0 else target.getD i 0)

/-- The typed array assembled by the flush loop: `count * componentsPerAttribute`
zero-initialized elements with `value` written at each `k * componentsPerAttribute`. -/
def buildTypedArray (count componentsPerAttribute : Nat) (value : List Int) : List Int :=
  (List.range count).foldl (fun arr k => overlayAt arr (k * componentsPerAttribute) value)
    (List.replicate (count * componentsPerAttribute) 0)

/-- The buffer writes one record's flush performs: one write per stored
offset/count range, each replicating the record's current value. -/
def writesFor (record : AttrRecord) : List BufferWrite :=
  record.indices.map (fun idx =>
    { bufferId := idx.vaAttribute.bufferId
      offsetInBytes := idx.offset * idx.vaAttribute.componentsPerAttribute * idx.vaAttribute.sizeInBytes
      data := buildTypedArray idx.count idx.vaAttribute.componentsPerAttribute record.value })

/-- The per-frame state `update` reads (`frameState`). -/
structure FrameState where
  mode : SceneMode
  passColor : Bool
  passPick : Bool
  projection : Nat
deriving DecidableEq, Repr

/-- The render context and scheduler behaviour for one `update` call:
whether `taskProcessor.scheduleTask` returns a promise, and the active
vertex attributes the shader cache reports for the two rebuilt programs. -/
structure Context where
  schedulerAccepts : Bool
  spAttributes : List String
  pickSpAttributes : List String
deriving DecidableEq, Repr

/-- Observable effects of one `update` call. -/
structure UpdateOutput where
  created : List GpuResource
  writes : List BufferWrite
  pushed : List CommandLists
  scheduled : Bool
  error : Option JsError
deriving DecidableEq, Repr

/-- No observable effect. -/
def emptyOutput : UpdateOutput :=
  { created := [], writes := [], pushed := [], scheduled := false, error := none }

/-- The `Primitive` object.  Field names follow the source; `show_` stands
for the JavaScript field `show` (a Lean keyword), and `_geomtries` is the
distinct property created by the misspelled assignment on the
COMBINED-to-COMPLETE transition. -/
structure Primitive where
  geometryInstances : Option (List GeometryInstance)
  appearance : Option Appearance
  _appearance : Option Nat
  _material : Option Nat
  modelMatrix : Nat
  show_ : Bool
  state : PrimitiveState
  _geometries : Option (List Geometry)
  _geomtries : Option (List Geometry)
  _vaAttributes : Option (List Nat)
  _vertexCacheOptimize : Bool
  _releaseGeometryInstances : Bool
  _allow3DOnly : Bool
  _boundingSphere : Option BSphere
  _boundingSphere2D : Option BSphere
  _perInstanceAttributes : Option PerInstanceTable
  _lastPerInstanceAttributeIndex : Nat
  _dirtyAttributes : List Nat
  _attrStore : List AttrRecord
  _va : List Nat
  _attributeIndices : Option (List (String × Nat))
  _rs : Option Nat
  _sp : Option (List String)
  _pickSP : Option (List String)
  _pickIds : List (Option Nat)
  _commandLists : CommandLists
deriving DecidableEq, Repr

/-- Constructor options (`options` with `defaultValue` fallbacks). -/
structure ConstructOptions where
  geometryInstances : Option (List GeometryInstance)
  appearance : Option Appearance
  vertexCacheOptimize : Option Bool
  releaseGeometryInstances : Option Bool
  allow3DOnly : Option Bool
deriving DecidableEq, Repr

/-- The `Primitive` constructor.  Note `_perInstanceAttributes` is the
defined empty object `{}` (both `ids` and `indices` absent), not
`undefined`. -/
def Primitive.construct (options : ConstructOptions) : Primitive :=
  { geometryInstances := options.geometryInstances
    appearance := options.appearance
    _appearance := none
    _material := none
    modelMatrix := 0
    show_ := true
    state := PrimitiveState.READY
    _geometries := none
    _geomtries := none
    _vaAttributes := none
    _vertexCacheOptimize := options.vertexCacheOptimize.getD true
    _releaseGeometryInstances := options.releaseGeometryInstances.getD true
    _allow3DOnly := options.allow3DOnly.getD false
    _boundingSphere := none
    _boundingSphere2D := none
    _perInstanceAttributes := some { ids := none, indices := none }
    _lastPerInstanceAttributeIndex := 0
    _dirtyAttributes := []
    _attrStore := []
    _va := []
    _attributeIndices := none
    _rs := none
    _sp := none
    _pickSP := none
    _pickIds := []
    _commandLists := { colorList := [], pickList := [] } }

/-- The early-exit guard at the top of `update`. -/
def earlyExit (p : Primitive) (frameState : FrameState) : Bool :=
  !p.show_ ||
  (p.geometryInstances.isNone && p._va.isEmpty) ||
  p.appearance.isNone ||
  (!(frameState.mode == SceneMode.SCENE3D) && p._allow3DOnly) ||
  (!frameState.passColor && !frameState.passPick)

/-- The rotating-start linear search loop of `getGeometryInstanceAttributes`:
iteration `i` probes `(lastIndex + i) % ids.length`; `fuel` counts the
remaining iterations of `for (i = 0; i < length; ++i)`. -/
def findRotatingGo (idv : Nat) (ids : List Nat) (lastIndex : Nat) : Nat → Nat → Option Nat
  | 0, _ => none
  | fuel + 1, i =>
    let curIndex := (lastIndex + i) % ids.length
    if ids.getD curIndex 0 = idv then some curIndex
    else findRotatingGo idv ids lastIndex fuel (i + 1)

/-- The whole search: `length` iterations starting at `i = 0`, returning
the probed index on a hit and `none` for the sentinel `-1`. -/
def findRotating (idv : Nat) (ids : List Nat) (lastIndex : Nat) : Option Nat :=
  findRotatingGo idv ids lastIndex ids.length 0

/-- `Primitive.prototype.getGeometryInstanceAttributes`.  The success
value is the accessor object, represented by the instance's
name-to-record-key map (each name getting a `createGetFunction` /
`createSetFunction` pair over the backing store). -/
def Primitive.getGeometryInstanceAttributes (p : Primitive) (id : Option Nat) :
    Except JsError (Primitive × Option (List (String × Nat))) :=
  match id with
  | none => Except.error (JsError.developerError "id is required")
  | some idv =>
    match p._perInstanceAttributes with
    | none =>
      Except.error (JsError.developerError
        "must call update before calling getGeometryInstanceAttributes")
    | some table =>
      match table.ids with
      | none =>
        -- `var ids = this._perInstanceAttributes.ids;` is `undefined` on the
        -- constructor's `{}`, so `ids.length` throws a TypeError.
        Except.error (JsError.typeError "Cannot read property length of undefined")
      | some ids =>
        match findRotating idv ids p._lastPerInstanceAttributeIndex with
        | none => Except.ok (p, none)
        | some index =>
          match table.indices with
          | none => Except.error (JsError.typeError "Cannot read property of undefined")
          | some idxs =>
            Except.ok ({ p with _lastPerInstanceAttributeIndex := index },
                       some (idxs.getD index []))

/-- `createGetFunction`: the getter returns the record's current value. -/
def getFunction (key : Nat) (store : List AttrRecord) : List Int :=
  (store.getD key defaultRecord).value

/-- The argument given to a generated setter: `undefined`, a value without
a `length` property, or an array of numbers. -/
inductive SetValue
  | undef
  | nonArray
  | arr (xs : List Int)
deriving DecidableEq, Repr

/-- The validation message thrown by `createSetFunction` (verbatim,
including the source's wording). -/
def setErrorMessage : String := "value must be and array with length between 1 and 4."

/-- `createSetFunction`: validate, store the value, and enqueue the record
once while marking it dirty.  The state (backing store plus dirty list) is
returned alongside the error, since a JavaScript throw precedes and hence
does not undo any mutation here. -/
def setFunction (key : Nat) (value : SetValue) (store : List AttrRecord)
    (dirtyList : List Nat) : (List AttrRecord × List Nat) × Option JsError :=
  match value with
  | SetValue.undef => ((store, dirtyList), some (JsError.developerError setErrorMessage))
  | SetValue.nonArray => ((store, dirtyList), some (JsError.developerError setErrorMessage))
  | SetValue.arr xs =>
    if xs.length < 1 ∨ xs.length > 4 then
      ((store, dirtyList), some (JsError.developerError setErrorMessage))
    else
      let attributeRecord := store.getD key defaultRecord
      if attributeRecord.dirty then
        ((store.set key { attributeRecord with value := xs }, dirtyList), none)
      else
        ((store.set key { attributeRecord with value := xs, dirty := true },
          dirtyList ++ [key]), none)

/-- One iteration of the dirty-attribute flush loop: emit the record's
buffer writes and clear its dirty flag. -/
def flushStep (acc : List AttrRecord × List BufferWrite) (k : Nat) :
    List AttrRecord × List BufferWrite :=
  let record := acc.1.getD k defaultRecord
  (acc.1.set k { record with dirty := false }, acc.2 ++ writesFor record)

/-- The `if (this._dirtyAttributes.length > 0)` block of `update`: flush
every queued record in insertion order, then truncate the queue
(`attributes.length = 0`). -/
def flushDirtyAttributes (store : List AttrRecord) (queue : List Nat) :
    (List AttrRecord × List Nat) × List BufferWrite :=
  if 0 < queue.length then
    let folded := queue.foldl flushStep (store, [])
    ((folded.1, []), folded.2)
  else ((store, queue), [])

/-- `validateShaderMatching`: throw on the first active shader attribute
missing from the shared attribute-index layout. -/
def validateShaderMatching (shaderAttributes : List String)
    (attributeIndices : List (String × Nat)) : Option JsError :=
  match shaderAttributes.find? (fun name => (attributeIndices.lookup name).isNone) with
  | some name =>
    some (JsError.developerError
      ("Appearance/Geometry mismatch.  The appearance requires vertex shader attribute input "
        ++ name ++ " which was not computed as part of the Geometry."))
  | none => none

/-- The READY branch of `update`: clone and snapshot the instances into
the opaque combine request, create one pick id per instance (pushed onto
`_pickIds` before the promise check), call the scheduler, and enter
COMBINING only if a promise came back. -/
def updateReady (p : Primitive) (context : Context) : Primitive × UpdateOutput :=
  match p.geometryInstances with
  | none =>
    -- `instances` is `[undefined]`; `cloneInstance(undefined)` reads
    -- `.attributes` of `undefined` and throws before any mutation.
    (p, { emptyOutput with error := some (JsError.typeError
            "Cannot read property attributes of undefined") })
  | some instances =>
    let pickOwners := instances.map GeometryInstance.id
    let p1 := { p with _pickIds := p._pickIds ++ pickOwners }
    let created := pickOwners.map GpuResource.pickId
    if context.schedulerAccepts then
      ({ p1 with state := PrimitiveState.COMBINING },
       { emptyOutput with created := created, scheduled := true })
    else
      (p1, { emptyOutput with created := created, scheduled := true })

/-- The COMBINED branch of `update`: clone the first bounding sphere,
project it unless 3D-only, build one vertex buffer per va attribute and
one vertex array plus one color and one pick command per merged geometry,
optionally release the input instances, assign `undefined` to the
misspelled `_geomtries`, and enter COMPLETE. -/
def updateCombined (p : Primitive) (frameState : FrameState) : Primitive × UpdateOutput :=
  let geometries := p._geometries.getD []
  let bs := ((geometries.head?).bind Geometry.boundingSphere).map BSphere.raw
  let bs2D :=
    if ¬p._allow3DOnly ∧ bs.isSome then
      bs.map (fun b => BSphere.projectedTo2D b frameState.projection)
    else p._boundingSphere2D
  let vaCounts := p._vaAttributes.getD []
  let createdVA := (List.range geometries.length).foldl (fun acc i =>
      acc ++ List.replicate (vaCounts.getD i 0) GpuResource.vertexBuffer
          ++ [GpuResource.vertexArray]) []
  let newColor := geometries.mapIdx (fun i g => DrawCommand.init g.primitiveType i)
  let newPick := geometries.mapIdx (fun i g => DrawCommand.init g.primitiveType i)
  let p2 := { p with
    _boundingSphere := bs
    _boundingSphere2D := bs2D
    _va := List.range geometries.length
    _commandLists := { colorList := p._commandLists.colorList ++ newColor
                       pickList := p._commandLists.pickList ++ newPick }
    geometryInstances := if p._releaseGeometryInstances then none else p.geometryInstances
    _geomtries := none
    state := PrimitiveState.COMPLETE }
  (p2, { emptyOutput with created := createdVA })

/-- The tail of the COMPLETE section: refresh renderState/shaderProgram/
uniformMap on every command when programs were (re)built, flush dirty
per-instance attributes, select the bounding volume for the current mode,
refresh model matrix and bounding volume on every command, and push the
command lists onto the caller's list. -/
def updateCompleteTail (p : Primitive) (frameState : FrameState) (acc : UpdateOutput)
    (refresh : Bool) (uniforms : Option Nat) : Primitive × UpdateOutput :=
  let cl := p._commandLists
  let cl2 :=
    if refresh then
      { colorList := cl.colorList.map (fun c =>
          { c with renderState := p._rs, shaderProgram := p._sp, uniformMap := uniforms })
        pickList := cl.pickList.map (fun c =>
          { c with renderState := p._rs, shaderProgram := p._pickSP, uniformMap := uniforms }) }
    else cl
  let flushed := flushDirtyAttributes p._attrStore p._dirtyAttributes
  let boundingSphere : Option BSphere :=
    if frameState.mode = SceneMode.SCENE3D then p._boundingSphere
    else if frameState.mode = SceneMode.COLUMBUS_VIEW then p._boundingSphere2D
    else if frameState.mode = SceneMode.SCENE2D ∧ (p._boundingSphere2D).isSome then
      (p._boundingSphere2D).map BSphere.clone2D
    else
      match p._boundingSphere, p._boundingSphere2D with
      | some a, some b => some (BSphere.union a b)
      | _, _ => none
  let cl3 : CommandLists :=
    { colorList := cl2.colorList.map (fun c =>
        { c with modelMatrix := some p.modelMatrix, boundingVolume := boundingSphere })
      pickList := cl2.pickList.map (fun c =>
        { c with modelMatrix := some p.modelMatrix, boundingVolume := boundingSphere }) }
  let p5 := { p with
    _attrStore := flushed.1.1
    _dirtyAttributes := flushed.1.2
    _commandLists := cl3 }
  (p5, { acc with writes := acc.writes ++ flushed.2, pushed := acc.pushed ++ [cl3] })

/-- The COMPLETE section of `update`: rebuild render state and shader
programs when the appearance or material identity changed, validate both
programs against the shared layout (a throw aborts the rest of the call
but keeps the mutations made so far), then run the tail. -/
def updateComplete (p : Primitive) (context : Context) (frameState : FrameState)
    (acc : UpdateOutput) : Primitive × UpdateOutput :=
  match p.appearance with
  | none => (p, acc)  -- unreachable: the early-exit guard requires an appearance
  | some appearance =>
    let material := appearance.material
    let uniforms := material.map Material._uniforms
    let triple : Primitive × Bool × Bool :=
      if p._appearance ≠ some appearance.appearanceId then
        ({ p with _appearance := some appearance.appearanceId
                  _material := material.map Material.materialId }, (true, true))
      else if p._material ≠ material.map Material.materialId then
        ({ p with _material := material.map Material.materialId }, (false, true))
      else (p, (false, false))
    let p1 := triple.1
    let createRS := triple.2.1
    let createSP := triple.2.2
    let p2 := if createRS then { p1 with _rs := some appearance.renderState } else p1
    let acc2 :=
      if createRS then { acc with created := acc.created ++ [GpuResource.renderState] }
      else acc
    if createSP then
      let p3 := { p2 with _sp := some context.spAttributes
                          _pickSP := some context.pickSpAttributes }
      let acc3 := { acc2 with created :=
        acc2.created ++ [GpuResource.shaderProgram, GpuResource.shaderProgram] }
      match validateShaderMatching context.spAttributes (p3._attributeIndices.getD []) with
      | some e => (p3, { acc3 with error := some e })
      | none =>
        match validateShaderMatching context.pickSpAttributes
            (p3._attributeIndices.getD []) with
        | some e => (p3, { acc3 with error := some e })
        | none => updateCompleteTail p3 frameState acc3 true uniforms
    else
      updateCompleteTail p2 frameState acc2 createRS uniforms

/-- `Primitive.prototype.update`.  The early-exit guard first; then the
READY branch (which always returns before the COMPLETE section, since the
state is READY or COMBINING afterwards), the COMBINED branch (which sets
COMPLETE and falls through), the COMPLETE section, or the
`state !== COMPLETE` early return for COMBINING and FAILED. -/
def Primitive.update (p : Primitive) (context : Context) (frameState : FrameState) :
    Primitive × UpdateOutput :=
  if earlyExit p frameState then (p, emptyOutput)
  else
    match p.state with
    | PrimitiveState.READY => updateReady p context
    | PrimitiveState.COMBINED =>
      let r := updateCombined p frameState
      updateComplete r.1 context frameState r.2
    | PrimitiveState.COMPLETE => updateComplete p context frameState emptyOutput
    | PrimitiveState.COMBINING => (p, emptyOutput)
    | PrimitiveState.FAILED => (p, emptyOutput)

/-- The payload of a successful combine resolution. -/
structure CombineResult where
  geometries : List Geometry
  attributeIndices : List (String × Nat)
  vaAttributes : List Nat
  ids : Option (List Nat)
  indices : Option (List (List (String × Nat)))
  attrStore : List AttrRecord
  modelMatrix : Nat
deriving DecidableEq, Repr

/-- The success callback registered on the combine promise. -/
def resolveCombineSuccess (p : Primitive) (result : CombineResult) : Primitive :=
  { p with
    _geometries := some result.geometries
    _attributeIndices := some result.attributeIndices
    _vaAttributes := some result.vaAttributes
    _perInstanceAttributes := some { ids := result.ids, indices := result.indices }
    _attrStore := result.attrStore
    modelMatrix := result.modelMatrix
    state := PrimitiveState.COMBINED }

/-- The failure callback registered on the combine promise. -/
def resolveCombineFailure (p : Primitive) : Primitive :=
  { p with state := PrimitiveState.FAILED }

/-- A primitive together with whether a dispatched combine task is still
unresolved (a promise whose one-shot callbacks have not fired). -/
structure System where
  prim : Primitive
  pending : Bool
deriving DecidableEq, Repr

/-- The operations that can touch the primitive's lifecycle: an `update`
call, or the exactly-once resolution of an outstanding combine promise
(success or failure). -/
inductive Step : System → System → Prop
  | update (s : System) (context : Context) (frameState : FrameState) :
      Step s { prim := (s.prim.update context frameState).1
               pending := s.pending ||
                 ((s.prim.state == PrimitiveState.READY) &&
                  ((s.prim.update context frameState).1.state == PrimitiveState.COMBINING)) }
  | resolveOk (s : System) (result : CombineResult) (h : s.pending = true) :
      Step s { prim := resolveCombineSuccess s.prim result, pending := false }
  | resolveFail (s : System) (h : s.pending = true) :
      Step s { prim := resolveCombineFailure s.prim, pending := false }

/-- A freshly constructed primitive with no outstanding combine. -/
def initSystem (options : ConstructOptions) : System :=
  { prim := Primitive.construct options, pending := false }

/-- States reachable from construction by `update` calls and promise
resolutions. -/
def Reachable (options : ConstructOptions) (s : System) : Prop :=
  Relation.ReflTransGen Step (initSystem options) s

/-- The transitions the specification's state machine allows (reflexive
stutter included, since most `update` calls leave the state alone). -/
def stateEdge (a b : PrimitiveState) : Prop :=
  a = b ∨
  (a = PrimitiveState.READY ∧ b = PrimitiveState.COMBINING) ∨
  (a = PrimitiveState.COMBINING ∧ b = PrimitiveState.COMBINED) ∨
  (a = PrimitiveState.COMBINING ∧ b = PrimitiveState.FAILED) ∨
  (a = PrimitiveState.COMBINED ∧ b = PrimitiveState.COMPLETE)

/-! ## Helper lemmas -/

theorem getD_set_self {α : Type} (l : List α) (i : Nat) (a d : α) (h : i < l.length) :
    (l.set i a).getD i d = a := by
  simp [List.getD_eq_getElem?_getD, List.getElem?_set_self h]

theorem getD_set_ne {α : Type} (l : List α) (i j : Nat) (a d : α) (h : i ≠ j) :
    (l.set i a).getD j d = l.getD j d := by
  simp [List.getD_eq_getElem?_getD, List.getElem?_set_ne h]

theorem updateCompleteTail_fst_state (p : Primitive) (fs : FrameState) (acc : UpdateOutput)
    (refresh : Bool) (uniforms : Option Nat) :
    (updateCompleteTail p fs acc refresh uniforms).1.state = p.state := rfl

theorem updateComplete_preserved (p : Primitive) (ctx : Context) (fs : FrameState)
    (acc : UpdateOutput) :
    (updateComplete p ctx fs acc).1.state = p.state ∧
    (updateComplete p ctx fs acc).1._geometries = p._geometries ∧
    (updateComplete p ctx fs acc).1._geomtries = p._geomtries ∧
    (updateComplete p ctx fs acc).1.geometryInstances = p.geometryInstances := by
  unfold updateComplete
  rcases hap : p.appearance with _ | a
  · exact ⟨rfl, rfl, rfl, rfl⟩
  · refine ⟨?_, ?_, ?_, ?_⟩ <;> (dsimp only; repeat' split) <;> rfl

theorem update_state_cases (p : Primitive) (ctx : Context) (fs : FrameState) :
    (p.update ctx fs).1.state = p.state ∨
    (p.state = PrimitiveState.READY ∧ (p.update ctx fs).1.state = PrimitiveState.COMBINING) ∨
    (p.state = PrimitiveState.COMBINED ∧ (p.update ctx fs).1.state = PrimitiveState.COMPLETE) := by
  unfold Primitive.update
  split
  · exact Or.inl rfl
  cases hs : p.state <;> dsimp only
  case READY =>
    unfold updateReady
    rcases hgi : p.geometryInstances with _ | l <;> dsimp only
    · exact Or.inl hs
    · split
      · exact Or.inr (Or.inl ⟨rfl, rfl⟩)
      · exact Or.inl hs
  case COMBINED =>
    refine Or.inr (Or.inr ⟨rfl, ?_⟩)
    rw [(updateComplete_preserved _ _ _ _).1]
    rfl
  case COMPLETE =>
    refine Or.inl ?_
    rw [(updateComplete_preserved _ _ _ _).1]
    exact hs
  case COMBINING => exact Or.inl hs
  case FAILED => exact Or.inl hs

theorem update_of_failed (p : Primitive) (ctx : Context) (fs : FrameState)
    (h : p.state = PrimitiveState.FAILED) :
    p.update ctx fs = (p, emptyOutput) := by
  unfold Primitive.update
  split
  · rfl
  · rw [h]

/-! ## Claim theorems -/

/-- C5: `update` is a strict no-op (state and every field unchanged, no
combine dispatched, nothing appended to the command list, no error)
whenever show is false, or there are no geometry instances and no built
vertex arrays, or no appearance is set, or `allow3DOnly` is set while the
mode is not SCENE3D, or neither the color pass nor the pick pass is
requested; in particular the state (e.g. READY) is unchanged. -/
theorem C5_early_exit_noop (p : Primitive) (ctx : Context) (fs : FrameState)
    (h : p.show_ = false ∨ (p.geometryInstances = none ∧ p._va = []) ∨ p.appearance = none ∨
         (fs.mode ≠ SceneMode.SCENE3D ∧ p._allow3DOnly = true) ∨
         (fs.passColor = false ∧ fs.passPick = false)) :
    p.update ctx fs = (p, emptyOutput) := by
  have he : earlyExit p fs = true := by
    simp only [earlyExit, Bool.or_eq_true, Bool.and_eq_true, Bool.not_eq_true',
      Option.isNone_iff_eq_none, List.isEmpty_iff, beq_iff_eq, beq_eq_false_iff_ne, ne_eq]
    tauto
  unfold Primitive.update
  rw [if_pos he]

/-- C5 witness: a READY primitive with `allow3DOnly = true` updated in a
non-3D mode is left untouched. -/
theorem C5_early_exit_noop_witness :
    (Primitive.construct
        { geometryInstances := some [{ id := some 3 }]
          appearance := some { appearanceId := 1, material := none, renderState := 0 }
          vertexCacheOptimize := none
          releaseGeometryInstances := none
          allow3DOnly := some true }).update { schedulerAccepts := true, spAttributes := [], pickSpAttributes := [] }
      { mode := SceneMode.SCENE2D, passColor := true, passPick := true, projection := 0 } =
    (Primitive.construct
        { geometryInstances := some [{ id := some 3 }]
          appearance := some { appearanceId := 1, material := none, renderState := 0 }
          vertexCacheOptimize := none
          releaseGeometryInstances := none
          allow3DOnly := some true }, emptyOutput) :=
  C5_early_exit_noop _ _ _ (Or.inr (Or.inr (Or.inr (Or.inl ⟨by decide, rfl⟩))))

/-- C3: on every freshly constructed primitive (no combine result
consumed), `getGeometryInstanceAttributes` with a defined id does not
fail with the documented DeveloperError precondition check: the dead
`undefined` guard is skipped because the constructor installs `{}`, and
the call crashes with a TypeError reading `length` of the undefined
`ids` property. -/
theorem C3_query_before_first_combine (options : ConstructOptions) (idv : Nat) :
    (Primitive.construct options).getGeometryInstanceAttributes (some idv) =
      Except.error (JsError.typeError "Cannot read property length of undefined") := rfl

/-- C8: after (re)building the shader programs, `validateShaderMatching`
throws a DeveloperError precisely when some active vertex attribute of
the program is absent from the shared attribute-index layout, and returns
normally when every active attribute is present. -/
theorem C8_validate_shader_matching_iff (shaderAttributes : List String)
    (attributeIndices : List (String × Nat)) :
    (∃ message, validateShaderMatching shaderAttributes attributeIndices =
        some (JsError.developerError message)) ↔
      ∃ name ∈ shaderAttributes, attributeIndices.lookup name = none := by
  unfold validateShaderMatching
  cases h : shaderAttributes.find? (fun name => (attributeIndices.lookup name).isNone) with
  | some name =>
    constructor
    · intro _
      refine ⟨name, List.mem_of_find?_eq_some h, ?_⟩
      have := List.find?_some h
      simpa [Option.isNone_iff_eq_none] using this
    · intro _
      exact ⟨_, rfl⟩
  | none =>
    constructor
    · rintro ⟨m, hm⟩
      cases hm
    · rintro ⟨name, hmem, hnone⟩
      have := List.find?_eq_none.mp h name hmem
      simp [hnone] at this

/-- C2 counterexample: the READY-to-COMBINING transition of `update` does
create a GPU resource in the spec's own classification: it creates a pick
id (one per instance) before any COMBINED-to-COMPLETE transition has
happened. -/
theorem C2_counterexample :
    (Primitive.construct
        { geometryInstances := some [{ id := some 7 }]
          appearance := some { appearanceId := 1, material := none, renderState := 0 }
          vertexCacheOptimize := none, releaseGeometryInstances := none,
          allow3DOnly := none }).state = PrimitiveState.READY ∧
    ((Primitive.construct
        { geometryInstances := some [{ id := some 7 }]
          appearance := some { appearanceId := 1, material := none, renderState := 0 }
          vertexCacheOptimize := none, releaseGeometryInstances := none,
          allow3DOnly := none }).update
      { schedulerAccepts := true, spAttributes := [], pickSpAttributes := [] }
      { mode := SceneMode.SCENE3D, passColor := true, passPick := false,
        projection := 0 }).1.state = PrimitiveState.COMBINING ∧
    GpuResource.pickId (some 7) ∈
      ((Primitive.construct
        { geometryInstances := some [{ id := some 7 }]
          appearance := some { appearanceId := 1, material := none, renderState := 0 }
          vertexCacheOptimize := none, releaseGeometryInstances := none,
          allow3DOnly := none }).update
      { schedulerAccepts := true, spAttributes := [], pickSpAttributes := [] }
      { mode := SceneMode.SCENE3D, passColor := true, passPick := false,
        projection := 0 }).2.created := by
  exact ⟨rfl, rfl, by decide⟩

/-- C2 amended: during the READY branch of `update` (the branch that
snapshots the instances and dispatches the combine task) no shader
program, vertex array, vertex buffer, or render state is created, but —
contrary to the original claim — one pick id per instance is created
there, before the COMBINED-to-COMPLETE transition. -/
theorem C2_ready_branch_resources (p : Primitive) (ctx : Context) (fs : FrameState)
    (l : List GeometryInstance) (hstate : p.state = PrimitiveState.READY)
    (hguard : earlyExit p fs = false) (hinst : p.geometryInstances = some l) :
    (p.update ctx fs).2.created = l.map (fun inst => GpuResource.pickId inst.id) ∧
    ∀ r ∈ (p.update ctx fs).2.created,
      r ≠ GpuResource.shaderProgram ∧ r ≠ GpuResource.vertexArray ∧
      r ≠ GpuResource.vertexBuffer ∧ r ≠ GpuResource.renderState := by
  have h1 : (p.update ctx fs).2.created = l.map (fun inst => GpuResource.pickId inst.id) := by
    unfold Primitive.update updateReady
    rw [if_neg (show ¬earlyExit p fs = true by simp [hguard])]
    rw [hstate, hinst]
    dsimp only
    split <;> simp [List.map_map, Function.comp_def]
  refine ⟨h1, ?_⟩
  rw [h1]
  intro r hr
  rw [List.mem_map] at hr
  obtain ⟨inst, -, rfl⟩ := hr
  refine ⟨by simp, by simp, by simp, by simp⟩

/-- C2 amended witness: a concrete READY update creating exactly the two
pick ids of its two instances. -/
theorem C2_ready_branch_resources_witness :
    ((Primitive.construct
        { geometryInstances := some [{ id := some 4 }, { id := none }]
          appearance := some { appearanceId := 2, material := none, renderState := 5 }
          vertexCacheOptimize := none, releaseGeometryInstances := none,
          allow3DOnly := none }).update
      { schedulerAccepts := false, spAttributes := [], pickSpAttributes := [] }
      { mode := SceneMode.SCENE3D, passColor := true, passPick := true,
        projection := 0 }).2.created =
    [GeometryInstance.mk (some 4), GeometryInstance.mk none].map
      (fun inst => GpuResource.pickId inst.id) :=
  (C2_ready_branch_resources _ _ _ _ rfl (by decide) rfl).1

/-- The READY branch when the task scheduler declines (returns no
promise): the pick ids are already pushed, the state stays READY, and the
scheduler was invoked. -/
theorem update_ready_declined (p : Primitive) (ctx : Context) (fs : FrameState)
    (l : List GeometryInstance) (hstate : p.state = PrimitiveState.READY)
    (hguard : earlyExit p fs = false) (hinst : p.geometryInstances = some l)
    (hsched : ctx.schedulerAccepts = false) :
    p.update ctx fs =
      ({ p with _pickIds := p._pickIds ++ l.map GeometryInstance.id },
       { emptyOutput with
          created := (l.map GeometryInstance.id).map GpuResource.pickId
          scheduled := true }) := by
  unfold Primitive.update updateReady
  rw [if_neg (show ¬earlyExit p fs = true by simp [hguard])]
  rw [hstate, hinst]
  dsimp only
  rw [if_neg (show ¬ctx.schedulerAccepts = true by simp [hsched])]

/-- C9: when the task scheduler returns no promise for the combine
request, `update` returns with the state still READY and the dispatch
leaves no record other than the pick ids already pushed; the next
`update` re-executes the entire READY branch, appending one new pick id
per instance to the already-populated `_pickIds` list, so pick ids
accumulate across declined dispatch attempts. -/
theorem C9_declined_dispatch_accumulates (p : Primitive) (ctx : Context) (fs : FrameState)
    (l : List GeometryInstance) (hstate : p.state = PrimitiveState.READY)
    (hguard : earlyExit p fs = false) (hinst : p.geometryInstances = some l)
    (hsched : ctx.schedulerAccepts = false) :
    (p.update ctx fs).1 = { p with _pickIds := p._pickIds ++ l.map GeometryInstance.id } ∧
    (p.update ctx fs).1.state = PrimitiveState.READY ∧
    (p.update ctx fs).2.scheduled = true ∧
    ((p.update ctx fs).1.update ctx fs).1._pickIds =
      p._pickIds ++ l.map GeometryInstance.id ++ l.map GeometryInstance.id ∧
    ((p.update ctx fs).1.update ctx fs).1.state = PrimitiveState.READY := by
  have h := update_ready_declined p ctx fs l hstate hguard hinst hsched
  have h2 := update_ready_declined { p with _pickIds := p._pickIds ++ l.map GeometryInstance.id }
    ctx fs l hstate hguard hinst hsched
  refine ⟨by rw [h], by rw [h]; exact hstate, by rw [h], ?_, ?_⟩
  · rw [h]
    rw [h2]
  · rw [h]
    rw [h2]
    exact hstate

/-- C9 witness: two declined dispatch attempts on a two-instance
primitive leave four pick ids. -/
theorem C9_declined_dispatch_accumulates_witness :
    (((Primitive.construct
        { geometryInstances := some [{ id := some 4 }, { id := some 9 }]
          appearance := some { appearanceId := 2, material := none, renderState := 5 }
          vertexCacheOptimize := none, releaseGeometryInstances := none,
          allow3DOnly := none }).update
      { schedulerAccepts := false, spAttributes := [], pickSpAttributes := [] }
      { mode := SceneMode.SCENE3D, passColor := true, passPick := true,
        projection := 0 }).1.update
      { schedulerAccepts := false, spAttributes := [], pickSpAttributes := [] }
      { mode := SceneMode.SCENE3D, passColor := true, passPick := true,
        projection := 0 }).1._pickIds =
      [] ++ [GeometryInstance.mk (some 4), GeometryInstance.mk (some 9)].map GeometryInstance.id
         ++ [GeometryInstance.mk (some 4), GeometryInstance.mk (some 9)].map GeometryInstance.id :=
  (C9_declined_dispatch_accumulates _ _ _ _ rfl (by decide) rfl rfl).2.2.2.1

/-- C10: after the COMBINED-to-COMPLETE transition of `update`, the
internal `_geometries` field still references the combined geometry array
(the transition assigns `undefined` only to the differently spelled
`_geomtries`), even when `_releaseGeometryInstances` is true; only the
public `geometryInstances` reference is cleared. -/
theorem C10_geometries_retained (p : Primitive) (ctx : Context) (fs : FrameState)
    (gs : List Geometry) (hstate : p.state = PrimitiveState.COMBINED)
    (hguard : earlyExit p fs = false) (hg : p._geometries = some gs) :
    (p.update ctx fs).1._geometries = some gs ∧
    (p.update ctx fs).1._geomtries = none ∧
    (p._releaseGeometryInstances = true → (p.update ctx fs).1.geometryInstances = none) := by
  unfold Primitive.update
  rw [if_neg (show ¬earlyExit p fs = true by simp [hguard])]
  rw [hstate]
  dsimp only
  obtain ⟨-, h2, h3, h4⟩ :=
    updateComplete_preserved (updateCombined p fs).1 ctx fs (updateCombined p fs).2
  refine ⟨?_, ?_, ?_⟩
  · rw [h2]
    exact hg
  · rw [h3]
    rfl
  · intro hrel
    rw [h4]
    show (if p._releaseGeometryInstances = true then none else p.geometryInstances) = none
    rw [if_pos hrel]

/-- C10 witness: a concrete COMBINED primitive keeps `_geometries` and
clears `geometryInstances` across the transition to COMPLETE. -/
theorem C10_geometries_retained_witness :
    (({ Primitive.construct
          { geometryInstances := some [{ id := some 1 }]
            appearance := some { appearanceId := 1, material := none, renderState := 0 }
            vertexCacheOptimize := none, releaseGeometryInstances := none,
            allow3DOnly := none } with
        state := PrimitiveState.COMBINED
        _geometries := some [{ primitiveType := 3, boundingSphere := some 11 }]
        _vaAttributes := some [2]
        _attributeIndices := some [] } : Primitive).update
      { schedulerAccepts := true, spAttributes := [], pickSpAttributes := [] }
      { mode := SceneMode.SCENE3D, passColor := true, passPick := false,
        projection := 0 }).1._geometries =
        some [{ primitiveType := 3, boundingSphere := some 11 }] ∧
    (({ Primitive.construct
          { geometryInstances := some [{ id := some 1 }]
            appearance := some { appearanceId := 1, material := none, renderState := 0 }
            vertexCacheOptimize := none, releaseGeometryInstances := none,
            allow3DOnly := none } with
        state := PrimitiveState.COMBINED
        _geometries := some [{ primitiveType := 3, boundingSphere := some 11 }]
        _vaAttributes := some [2]
        _attributeIndices := some [] } : Primitive).update
      { schedulerAccepts := true, spAttributes := [], pickSpAttributes := [] }
      { mode := SceneMode.SCENE3D, passColor := true, passPick := false,
        projection := 0 }).1.geometryInstances = none := by
  have h := C10_geometries_retained
    { Primitive.construct
        { geometryInstances := some [{ id := some 1 }]
          appearance := some { appearanceId := 1, material := none, renderState := 0 }
          vertexCacheOptimize := none, releaseGeometryInstances := none,
          allow3DOnly := none } with
      state := PrimitiveState.COMBINED
      _geometries := some [{ primitiveType := 3, boundingSphere := some 11 }]
      _vaAttributes := some [2]
      _attributeIndices := some [] }
    { schedulerAccepts := true, spAttributes := [], pickSpAttributes := [] }
    { mode := SceneMode.SCENE3D, passColor := true, passPick := false, projection := 0 }
    [{ primitiveType := 3, boundingSphere := some 11 }] rfl (by decide) rfl
  exact ⟨h.1, h.2.2 rfl⟩

/-- Evaluation of `setFunction` on an invalid array length. -/
theorem setFunction_arr_invalid (key : Nat) (xs : List Int) (store : List AttrRecord)
    (dirtyList : List Nat) (hc : xs.length < 1 ∨ xs.length > 4) :
    setFunction key (SetValue.arr xs) store dirtyList =
      ((store, dirtyList), some (JsError.developerError setErrorMessage)) := by
  unfold setFunction
  dsimp only
  rw [if_pos hc]

/-- Evaluation of `setFunction` on a valid value when the record is
already dirty. -/
theorem setFunction_arr_valid_dirty (key : Nat) (xs : List Int) (store : List AttrRecord)
    (dirtyList : List Nat) (hc : ¬(xs.length < 1 ∨ xs.length > 4))
    (hd : (store.getD key defaultRecord).dirty = true) :
    setFunction key (SetValue.arr xs) store dirtyList =
      ((store.set key { store.getD key defaultRecord with value := xs }, dirtyList), none) := by
  unfold setFunction
  dsimp only
  rw [if_neg hc, if_pos hd]

/-- Evaluation of `setFunction` on a valid value when the record is
clean. -/
theorem setFunction_arr_valid_clean (key : Nat) (xs : List Int) (store : List AttrRecord)
    (dirtyList : List Nat) (hc : ¬(xs.length < 1 ∨ xs.length > 4))
    (hd : (store.getD key defaultRecord).dirty = false) :
    setFunction key (SetValue.arr xs) store dirtyList =
      ((store.set key { store.getD key defaultRecord with value := xs, dirty := true },
        dirtyList ++ [key]), none) := by
  unfold setFunction
  dsimp only
  rw [if_neg hc, if_neg (show ¬(store.getD key defaultRecord).dirty = true by rw [hd]; simp)]

/-- C7: a generated attribute setter fails with the DeveloperError
validation exactly when the value is undefined, has no length, or has
length outside 1 to 4; the throw happens before any mutation, so the
store and dirty queue are returned unchanged.  On success the record's
stored value becomes the new value and, exactly when the record was not
already dirty, the record is appended to the dirty queue and marked
dirty. -/
theorem C7_set_function_validation (key : Nat) (value : SetValue) (store : List AttrRecord)
    (dirtyList : List Nat) :
    ((setFunction key value store dirtyList).2 =
        some (JsError.developerError setErrorMessage) ↔
      value = SetValue.undef ∨ value = SetValue.nonArray ∨
        ∃ xs, value = SetValue.arr xs ∧ (xs.length < 1 ∨ 4 < xs.length)) ∧
    ((setFunction key value store dirtyList).2.isSome →
      (setFunction key value store dirtyList).1 = (store, dirtyList)) ∧
    (∀ xs, value = SetValue.arr xs → 1 ≤ xs.length → xs.length ≤ 4 →
      (setFunction key value store dirtyList).2 = none ∧
      (setFunction key value store dirtyList).1.1 =
        store.set key
          (if (store.getD key defaultRecord).dirty then
            { store.getD key defaultRecord with value := xs }
          else { store.getD key defaultRecord with value := xs, dirty := true }) ∧
      (setFunction key value store dirtyList).1.2 =
        (if (store.getD key defaultRecord).dirty then dirtyList
         else dirtyList ++ [key])) := by
  rcases value with _ | _ | xs
  · refine ⟨⟨fun _ => Or.inl rfl, fun _ => rfl⟩, fun _ => rfl, ?_⟩
    intro ys h
    cases h
  · refine ⟨⟨fun _ => Or.inr (Or.inl rfl), fun _ => rfl⟩, fun _ => rfl, ?_⟩
    intro ys h
    cases h
  · by_cases hc : xs.length < 1 ∨ xs.length > 4
    · rw [setFunction_arr_invalid key xs store dirtyList hc]
      refine ⟨⟨fun _ => Or.inr (Or.inr ⟨xs, rfl, hc⟩), fun _ => rfl⟩, fun _ => rfl, ?_⟩
      intro ys hys h1 h4
      injection hys with he
      subst he
      omega
    · by_cases hd : (store.getD key defaultRecord).dirty = true
      · rw [setFunction_arr_valid_dirty key xs store dirtyList hc hd]
        refine ⟨?_, ?_, ?_⟩
        · constructor
          · intro h
            exact absurd h (by simp)
          · rintro (h | h | ⟨ys, hys, hy⟩)
            · cases h
            · cases h
            · injection hys with he
              subst he
              omega
        · intro h
          simp at h
        · intro ys hys h1 h4
          injection hys with he
          subst he
          exact ⟨rfl, by rw [if_pos hd], by rw [if_pos hd]⟩
      · have hd' : (store.getD key defaultRecord).dirty = false := by
          revert hd
          cases (store.getD key defaultRecord).dirty <;> simp
        rw [setFunction_arr_valid_clean key xs store dirtyList hc hd']
        refine ⟨?_, ?_, ?_⟩
        · constructor
          · intro h
            exact absurd h (by simp)
          · rintro (h | h | ⟨ys, hys, hy⟩)
            · cases h
            · cases h
            · injection hys with he
              subst he
              omega
        · intro h
          simp at h
        · intro ys hys h1 h4
          injection hys with he
          subst he
          refine ⟨rfl, ?_, ?_⟩
          · rw [if_neg hd]
          · rw [if_neg hd]

/-- C7 witness: a successful set on a clean record stores the value,
appends the key to the dirty queue once, and marks the record dirty. -/
theorem C7_set_function_validation_witness :
    (setFunction 0 (SetValue.arr [1, 2]) [defaultRecord] []).2 = none ∧
    (setFunction 0 (SetValue.arr [1, 2]) [defaultRecord] []).1.1 =
      [{ value := [1, 2], indices := [], dirty := true }] ∧
    (setFunction 0 (SetValue.arr [1, 2]) [defaultRecord] []).1.2 = [0] := by
  have h := (C7_set_function_validation 0 (SetValue.arr [1, 2]) [defaultRecord] []).2.2
    [1, 2] rfl (by decide) (by decide)
  refine ⟨h.1, ?_, ?_⟩
  · rw [h.2.1]
    decide
  · rw [h.2.2]
    decide


/-! ## Rotating-search lemmas for C4 -/

/-- A hit returned by the search loop names a valid index holding the
searched id. -/
theorem findRotatingGo_some (idv : Nat) (ids : List Nat) (lastIndex : Nat)
    (hlen : 0 < ids.length) :
    ∀ fuel i j, findRotatingGo idv ids lastIndex fuel i = some j →
      j < ids.length ∧ ids.getD j 0 = idv := by
  intro fuel
  induction fuel with
  | zero =>
    intro i j h
    cases h
  | succ n ih =>
    intro i j h
    unfold findRotatingGo at h
    dsimp only at h
    split at h
    · cases h
      exact ⟨Nat.mod_lt _ hlen, by assumption⟩
    · exact ih (i + 1) j h

/-- A miss of the search loop means none of the probed slots holds the
searched id. -/
theorem findRotatingGo_none (idv : Nat) (ids : List Nat) (lastIndex : Nat) :
    ∀ fuel i, findRotatingGo idv ids lastIndex fuel i = none →
      ∀ d, d < fuel → ¬ids.getD ((lastIndex + (i + d)) % ids.length) 0 = idv := by
  intro fuel
  induction fuel with
  | zero =>
    intro i _ d hd
    omega
  | succ n ih =>
    intro i h d hd
    unfold findRotatingGo at h
    dsimp only at h
    split at h
    · cases h
    · rcases d with _ | d
      · simpa using (by assumption : ¬ids.getD ((lastIndex + i) % ids.length) 0 = idv)
      · have he : lastIndex + (i + (d + 1)) = lastIndex + (i + 1 + d) := by omega
        rw [he]
        exact ih (i + 1) h d (by omega)

/-- Every residue below the length is probed by some iteration of the
rotating search. -/
theorem mod_coverage (lastIndex k len : Nat) (hlen : 0 < len) (hk : k < len) :
    ∃ d, d < len ∧ (lastIndex + d) % len = k := by
  refine ⟨(k + len - lastIndex % len) % len, Nat.mod_lt _ hlen, ?_⟩
  have hr : lastIndex % len < len := Nat.mod_lt _ hlen
  have h1 : (lastIndex + (k + len - lastIndex % len) % len) % len
      = (lastIndex % len + (k + len - lastIndex % len) % len % len) % len := by
    rw [← Nat.add_mod]
  rw [h1, Nat.mod_mod_of_dvd _ (dvd_refl len)]
  have h2 : (lastIndex % len + (k + len - lastIndex % len) % len) % len
      = (lastIndex % len % len + (k + len - lastIndex % len) % len) % len := by
    rw [Nat.mod_mod_of_dvd _ (dvd_refl len)]
  rw [h2, ← Nat.add_mod]
  have h3 : lastIndex % len + (k + len - lastIndex % len) = k + len := by omega
  rw [h3, Nat.add_mod_right]
  exact Nat.mod_eq_of_lt hk

/-- The rotating search finds every present id. -/
theorem findRotating_complete (idv : Nat) (ids : List Nat) (lastIndex : Nat)
    (h : idv ∈ ids) : ∃ j, findRotating idv ids lastIndex = some j := by
  have hlen : 0 < ids.length := List.length_pos_of_mem h
  cases hf : findRotating idv ids lastIndex with
  | some j => exact ⟨j, rfl⟩
  | none =>
    exfalso
    obtain ⟨n, hn, hv⟩ := List.mem_iff_getElem.mp h
    obtain ⟨d, hd, hmod⟩ := mod_coverage lastIndex n ids.length hlen hn
    have := findRotatingGo_none idv ids lastIndex ids.length 0 hf d hd
    rw [Nat.zero_add, hmod] at this
    apply this
    rw [List.getD_eq_getElem?_getD, List.getElem?_eq_getElem hn]
    exact hv

/-- The rotating search misses every absent id. -/
theorem findRotating_not_mem (idv : Nat) (ids : List Nat) (lastIndex : Nat)
    (h : idv ∉ ids) : findRotating idv ids lastIndex = none := by
  cases hf : findRotating idv ids lastIndex with
  | none => rfl
  | some j =>
    exfalso
    rcases ids with _ | ⟨a, l⟩
    · cases hf
    · have hlen : 0 < (a :: l).length := by simp
      obtain ⟨hjl, hje⟩ := findRotatingGo_some idv (a :: l) lastIndex hlen _ _ _ hf
      apply h
      rw [List.getD_eq_getElem?_getD, List.getElem?_eq_getElem hjl] at hje
      rw [← hje]
      exact List.getElem_mem hjl

/-- C4: on a populated per-instance attribute table, for every stored id
and every value of the rotating start index
`_lastPerInstanceAttributeIndex`, `getGeometryInstanceAttributes` finds
the id (never misses a present one) and returns the accessor object for
its record, updating the start index to the hit; for every id not in the
table it returns undefined and leaves the primitive (including the start
index) unchanged. -/
theorem C4_rotating_lookup (p : Primitive) (table : PerInstanceTable) (ids : List Nat)
    (idxs : List (List (String × Nat))) (idv : Nat)
    (ht : p._perInstanceAttributes = some table) (hids : table.ids = some ids)
    (hidx : table.indices = some idxs) :
    (idv ∈ ids →
      ∃ j, j < ids.length ∧ ids.getD j 0 = idv ∧
        p.getGeometryInstanceAttributes (some idv) =
          Except.ok ({ p with _lastPerInstanceAttributeIndex := j }, some (idxs.getD j []))) ∧
    (idv ∉ ids →
      p.getGeometryInstanceAttributes (some idv) = Except.ok (p, none)) := by
  constructor
  · intro hm
    obtain ⟨j, hj⟩ := findRotating_complete idv ids p._lastPerInstanceAttributeIndex hm
    have hlen : 0 < ids.length := List.length_pos_of_mem hm
    obtain ⟨hjl, hje⟩ := findRotatingGo_some idv ids p._lastPerInstanceAttributeIndex hlen _ _ _ hj
    refine ⟨j, hjl, hje, ?_⟩
    unfold Primitive.getGeometryInstanceAttributes
    rw [ht]
    dsimp only
    rw [hids]
    dsimp only
    rw [hj]
    dsimp only
    rw [hidx]
  · intro hm
    unfold Primitive.getGeometryInstanceAttributes
    rw [ht]
    dsimp only
    rw [hids]
    dsimp only
    rw [findRotating_not_mem idv ids p._lastPerInstanceAttributeIndex hm]

/-- C4 witness: a two-entry table with an out-of-range start index still
resolves a present id and returns undefined for an absent one. -/
theorem C4_rotating_lookup_witness :
    ({ Primitive.construct
          { geometryInstances := none, appearance := none, vertexCacheOptimize := none,
            releaseGeometryInstances := none, allow3DOnly := none } with
        _perInstanceAttributes :=
          some { ids := some [5, 3], indices := some [[("color", 0)], [("color", 1)]] }
        _lastPerInstanceAttributeIndex := 7 } : Primitive).getGeometryInstanceAttributes
      (some 9) =
      Except.ok
        (({ Primitive.construct
            { geometryInstances := none, appearance := none, vertexCacheOptimize := none,
              releaseGeometryInstances := none, allow3DOnly := none } with
          _perInstanceAttributes :=
            some { ids := some [5, 3], indices := some [[("color", 0)], [("color", 1)]] }
          _lastPerInstanceAttributeIndex := 7 } : Primitive), none) :=
  (C4_rotating_lookup _
    { ids := some [5, 3], indices := some [[("color", 0)], [("color", 1)]] }
    [5, 3] [[("color", 0)], [("color", 1)]] 9 rfl rfl rfl).2 (by decide)

/-! ## Dirty-attribute coalescing and flush (C6) -/

/-- Well-formedness of the record store and dirty queue: no duplicate
queue entries, queue entries point into the store, and a record is dirty
exactly when queued (the invariant `createSetFunction` maintains). -/
def storeWF (store : List AttrRecord) (queue : List Nat) : Prop :=
  queue.Nodup ∧ (∀ k ∈ queue, k < store.length) ∧
  ∀ k, k < store.length → (((store.getD k defaultRecord).dirty = true) ↔ k ∈ queue)

/-- A sequence of setter calls on the same attribute record. -/
def applySets (key : Nat) (vs : List (List Int)) (sq : List AttrRecord × List Nat) :
    List AttrRecord × List Nat :=
  vs.foldl (fun sq v => (setFunction key (SetValue.arr v) sq.1 sq.2).1) sq

/-- The invariant after at least one successful set of `key`: the store
size is unchanged, the key is queued exactly once, its record is dirty,
holds the latest value, and keeps its original index ranges. -/
def SetInv (key : Nat) (origIndices : List AttrIndex) (n : Nat) (v : List Int)
    (sq : List AttrRecord × List Nat) : Prop :=
  sq.1.length = n ∧ sq.2.count key = 1 ∧
  (sq.1.getD key defaultRecord).dirty = true ∧
  (sq.1.getD key defaultRecord).value = v ∧
  (sq.1.getD key defaultRecord).indices = origIndices

theorem SetInv_step (key : Nat) (origIndices : List AttrIndex) (n : Nat) (v w : List Int)
    (sq : List AttrRecord × List Nat) (hinv : SetInv key origIndices n v sq)
    (hw1 : 1 ≤ w.length) (hw4 : w.length ≤ 4) (hk : key < n) :
    SetInv key origIndices n w ((setFunction key (SetValue.arr w) sq.1 sq.2).1) := by
  obtain ⟨hlen, hcount, hdirty, hval, hind⟩ := hinv
  rw [setFunction_arr_valid_dirty _ _ _ _ (by omega) hdirty]
  have hk' : key < sq.1.length := by omega
  refine ⟨by simpa using hlen, hcount, ?_, ?_, ?_⟩
  · rw [getD_set_self _ _ _ _ hk']
    exact hdirty
  · rw [getD_set_self _ _ _ _ hk']
  · rw [getD_set_self _ _ _ _ hk']
    exact hind

theorem SetInv_init (key : Nat) (v : List Int) (store : List AttrRecord) (queue : List Nat)
    (hwf : storeWF store queue) (hk : key < store.length)
    (hv1 : 1 ≤ v.length) (hv4 : v.length ≤ 4) :
    SetInv key (store.getD key defaultRecord).indices store.length v
      ((setFunction key (SetValue.arr v) store queue).1) := by
  obtain ⟨hnd, hmem, hiff⟩ := hwf
  by_cases hd : (store.getD key defaultRecord).dirty = true
  · rw [setFunction_arr_valid_dirty _ _ _ _ (by omega) hd]
    have hkq : key ∈ queue := (hiff key hk).mp hd
    refine ⟨by simp, List.count_eq_one_of_mem hnd hkq, ?_, ?_, ?_⟩
    · rw [getD_set_self _ _ _ _ hk]
      exact hd
    · rw [getD_set_self _ _ _ _ hk]
    · rw [getD_set_self _ _ _ _ hk]
  · have hd' : (store.getD key defaultRecord).dirty = false := by
      revert hd
      cases (store.getD key defaultRecord).dirty <;> simp
    rw [setFunction_arr_valid_clean _ _ _ _ (by omega) hd']
    have hkq : key ∉ queue := fun hmem' => hd ((hiff key hk).mpr hmem')
    refine ⟨by simp, ?_, ?_, ?_, ?_⟩
    · rw [List.count_append]
      rw [List.count_eq_zero_of_not_mem hkq, List.count_singleton_self]
    · rw [getD_set_self _ _ _ _ hk]
    · rw [getD_set_self _ _ _ _ hk]
    · rw [getD_set_self _ _ _ _ hk]

theorem applySets_inv (key : Nat) (origIndices : List AttrIndex) (n : Nat) :
    ∀ (vs : List (List Int)) (sq : List AttrRecord × List Nat) (v0 : List Int),
      SetInv key origIndices n v0 sq → (∀ v ∈ vs, 1 ≤ v.length ∧ v.length ≤ 4) → key < n →
      SetInv key origIndices n (vs.getLastD v0) (applySets key vs sq) := by
  intro vs
  induction vs with
  | nil =>
    intro sq v0 h _ _
    simpa [applySets] using h
  | cons v rest ih =>
    intro sq v0 h hall hk
    have hstep := SetInv_step key origIndices n v0 v sq h
      (hall v (by simp)).1 (hall v (by simp)).2 hk
    have : applySets key (v :: rest) sq =
        applySets key rest ((setFunction key (SetValue.arr v) sq.1 sq.2).1) := by
      simp [applySets]
    rw [this, List.getLastD_cons]
    exact ih _ v hstep (fun w hw => hall w (by simp [hw])) hk

/-- Clearing one dirty flag changes neither values nor index ranges at
any key. -/
theorem set_dirty_false_getD_vi (store : List AttrRecord) (q k : Nat) :
    (((store.set q { store.getD q defaultRecord with dirty := false }).getD k
        defaultRecord).value = (store.getD k defaultRecord).value) ∧
    (((store.set q { store.getD q defaultRecord with dirty := false }).getD k
        defaultRecord).indices = (store.getD k defaultRecord).indices) := by
  by_cases hqk : q = k
  · subst hqk
    by_cases hlt : q < store.length
    · rw [getD_set_self _ _ _ _ hlt]
      exact ⟨rfl, rfl⟩
    · rw [List.set_eq_of_length_le (Nat.le_of_not_lt hlt)]
      exact ⟨rfl, rfl⟩
  · rw [getD_set_ne _ _ _ _ _ hqk]
    exact ⟨rfl, rfl⟩

/-- `writesFor` reads only the value and the index ranges. -/
theorem writesFor_congr (r s : AttrRecord) (hv : r.value = s.value)
    (hi : r.indices = s.indices) : writesFor r = writesFor s := by
  unfold writesFor
  rw [hv, hi]

/-- The flush loop emits, in queue order, each queued record's writes as
computed from the store it started with (the loop changes only dirty
flags, which the writes do not read). -/
theorem flushFold_writes (queue : List Nat) :
    ∀ (store : List AttrRecord) (acc : List BufferWrite),
      (queue.foldl flushStep (store, acc)).2 =
        acc ++ (queue.map (fun k => writesFor (store.getD k defaultRecord))).flatten := by
  induction queue with
  | nil =>
    intro store acc
    simp
  | cons q rest ih =>
    intro store acc
    rw [List.foldl_cons]
    show (rest.foldl flushStep
      (store.set q { store.getD q defaultRecord with dirty := false },
       acc ++ writesFor (store.getD q defaultRecord))).2 = _
    rw [ih]
    have hmap : rest.map (fun k =>
        writesFor ((store.set q { store.getD q defaultRecord with dirty := false }).getD k
          defaultRecord)) =
        rest.map (fun k => writesFor (store.getD k defaultRecord)) := by
      apply List.map_congr_left
      intro k _
      exact writesFor_congr _ _ (set_dirty_false_getD_vi store q k).1
        (set_dirty_false_getD_vi store q k).2
    rw [hmap]
    simp

/-- A record still dirty after the flush loop was dirty before and was
not queued. -/
theorem flushFold_dirty_mono (queue : List Nat) :
    ∀ (store : List AttrRecord) (acc : List BufferWrite) (k : Nat),
      (((queue.foldl flushStep (store, acc)).1.getD k defaultRecord).dirty = true) →
      ((store.getD k defaultRecord).dirty = true ∧ k ∉ queue) := by
  induction queue with
  | nil =>
    intro store acc k h
    exact ⟨h, by simp⟩
  | cons q rest ih =>
    intro store acc k h
    rw [List.foldl_cons] at h
    have h' : ((rest.foldl flushStep
        (store.set q { store.getD q defaultRecord with dirty := false },
         acc ++ writesFor (store.getD q defaultRecord))).1.getD k defaultRecord).dirty =
        true := h
    obtain ⟨h1, h2⟩ := ih _ _ k h'
    by_cases hqk : q = k
    · subst hqk
      exfalso
      by_cases hlt : q < store.length
      · rw [getD_set_self _ _ _ _ hlt] at h1
        simp at h1
      · rw [List.set_eq_of_length_le (Nat.le_of_not_lt hlt)] at h1
        rw [List.getD_eq_getElem?_getD, List.getElem?_len_le (Nat.le_of_not_lt hlt)] at h1
        simp [defaultRecord] at h1
    · rw [getD_set_ne _ _ _ _ _ hqk] at h1
      refine ⟨h1, ?_⟩
      intro hmem
      rcases List.mem_cons.mp hmem with h | h
      · exact hqk h.symm
      · exact h2 h

/-- The `_dirtyAttributes` flush: on a nonempty queue it empties the
queue, clears every queued record's dirty flag, and emits exactly the
queued records' writes in insertion order. -/
theorem flushDirtyAttributes_spec (store : List AttrRecord) (queue : List Nat)
    (hne : queue ≠ []) :
    (flushDirtyAttributes store queue).1.2 = [] ∧
    (∀ k ∈ queue,
      ((flushDirtyAttributes store queue).1.1.getD k defaultRecord).dirty = false) ∧
    (flushDirtyAttributes store queue).2 =
      (queue.map (fun k => writesFor (store.getD k defaultRecord))).flatten := by
  unfold flushDirtyAttributes
  rw [if_pos (List.length_pos.mpr hne)]
  refine ⟨rfl, ?_, by simpa using flushFold_writes queue store []⟩
  intro k hk
  by_cases hd : ((queue.foldl flushStep (store, [])).1.getD k defaultRecord).dirty = true
  · exact absurd hk (flushFold_dirty_mono queue store [] k hd).2
  · revert hd
    cases ((queue.foldl flushStep (store, [])).1.getD k defaultRecord).dirty <;> simp

/-- C6: starting from a well-formed store and dirty queue, any nonempty
run of successful sets on the same attribute record leaves exactly one
queue entry for it holding the latest value; the subsequent flush then
emits, per queued record, one write per stored offset/count range built
from that latest value, empties the queue, and clears every flushed
record's dirty flag. -/
theorem C6_dirty_coalescing (store : List AttrRecord) (queue : List Nat) (key : Nat)
    (vs : List (List Int)) (hwf : storeWF store queue) (hk : key < store.length)
    (hne : vs ≠ []) (hval : ∀ v ∈ vs, 1 ≤ v.length ∧ v.length ≤ 4) :
    (applySets key vs (store, queue)).2.count key = 1 ∧
    ((applySets key vs (store, queue)).1.getD key defaultRecord).value = vs.getLast hne ∧
    (flushDirtyAttributes (applySets key vs (store, queue)).1
        (applySets key vs (store, queue)).2).1.2 = [] ∧
    (∀ k ∈ (applySets key vs (store, queue)).2,
      ((flushDirtyAttributes (applySets key vs (store, queue)).1
          (applySets key vs (store, queue)).2).1.1.getD k defaultRecord).dirty = false) ∧
    (flushDirtyAttributes (applySets key vs (store, queue)).1
        (applySets key vs (store, queue)).2).2 =
      ((applySets key vs (store, queue)).2.map (fun k =>
        writesFor ((applySets key vs (store, queue)).1.getD k defaultRecord))).flatten ∧
    writesFor ((applySets key vs (store, queue)).1.getD key defaultRecord) =
      (store.getD key defaultRecord).indices.map (fun idx =>
        { bufferId := idx.vaAttribute.bufferId
          offsetInBytes :=
            idx.offset * idx.vaAttribute.componentsPerAttribute * idx.vaAttribute.sizeInBytes
          data := buildTypedArray idx.count idx.vaAttribute.componentsPerAttribute
            (vs.getLast hne) }) := by
  rcases vs with _ | ⟨v, rest⟩
  · exact absurd rfl hne
  have hv := hval v (by simp)
  have h0 := SetInv_init key v store queue hwf hk hv.1 hv.2
  have hinv := applySets_inv key (store.getD key defaultRecord).indices store.length rest
    ((setFunction key (SetValue.arr v) store queue).1) v h0
    (fun w hw => hval w (by simp [hw])) hk
  have happ : applySets key (v :: rest) (store, queue) =
      applySets key rest ((setFunction key (SetValue.arr v) store queue).1) := by
    simp [applySets]
  rw [happ]
  obtain ⟨hlen, hcount, hdirty, hvalue, hindices⟩ := hinv
  have hglast : (v :: rest).getLast hne = rest.getLastD v :=
    List.getLast_eq_getLastD _ _ _
  have hmem : key ∈ (applySets key rest
      ((setFunction key (SetValue.arr v) store queue).1)).2 := by
    have : 0 < (applySets key rest
        ((setFunction key (SetValue.arr v) store queue).1)).2.count key := by omega
    exact List.count_pos_iff.mp this
  have hqne := List.ne_nil_of_mem hmem
  obtain ⟨hf1, hf2, hf3⟩ := flushDirtyAttributes_spec _ _ hqne
  refine ⟨hcount, ?_, hf1, hf2, ?_, ?_⟩
  · rw [hvalue, hglast]
  · rw [hf3]
  · unfold writesFor
    rw [hvalue, hindices, hglast]

/-- C6 witness: two sets on one record coalesce to a single queue entry
and the flush writes replicate only the second value over the stored
range. -/
theorem C6_dirty_coalescing_witness :
    (applySets 0 [[5], [9]]
      (([⟨[0], [⟨2, 3, ⟨1, 4, 77⟩⟩], false⟩] : List AttrRecord), [])).2.count 0 = 1 ∧
    writesFor ((applySets 0 [[5], [9]]
      (([⟨[0], [⟨2, 3, ⟨1, 4, 77⟩⟩], false⟩] : List AttrRecord), [])).1.getD 0
        defaultRecord) =
      [⟨77, 8, [9, 9, 9]⟩] := by
  have hwf : storeWF ([⟨[0], [⟨2, 3, ⟨1, 4, 77⟩⟩], false⟩] : List AttrRecord) [] := by
    refine ⟨List.nodup_nil, by simp, ?_⟩
    intro k hk
    have hk0 : k = 0 := by
      simpa using hk
    subst hk0
    simp [defaultRecord]
  have h := C6_dirty_coalescing _ _ 0 [[5], [9]] hwf (by simp) (by simp) (by decide)
  refine ⟨h.1, ?_⟩
  rw [h.2.2.2.2.2]
  decide

/-! ## The state machine (C1) -/

/-- On every reachable system, a combine resolution is outstanding
exactly while the primitive is COMBINING. -/
theorem reachable_pending_iff (options : ConstructOptions) (s : System)
    (h : Reachable options s) :
    s.pending = true ↔ s.prim.state = PrimitiveState.COMBINING := by
  induction h with
  | refl => simp [initSystem, Primitive.construct]
  | tail hab hbc ih =>
    rename_i b c
    cases hbc with
    | update ctx fs =>
      simp only [Bool.or_eq_true, Bool.and_eq_true, beq_iff_eq]
      rcases update_state_cases b.prim ctx fs with h | ⟨h1, h2⟩ | ⟨h1, h2⟩
      · rw [h]
        constructor
        · rintro (hp | ⟨h1, h2⟩)
          · exact ih.mp hp
          · rw [h1] at h2
            exact absurd h2 (by decide)
        · intro hc
          exact Or.inl (ih.mpr hc)
      · rw [h2]
        constructor
        · intro _
          rfl
        · intro _
          exact Or.inr ⟨h1, rfl⟩
      · rw [h2]
        constructor
        · rintro (hp | ⟨hr, _⟩)
          · have := ih.mp hp
            rw [h1] at this
            exact absurd this (by decide)
          · rw [h1] at hr
            exact absurd hr (by decide)
        · intro hc
          exact absurd hc (by decide)
    | resolveOk result hpend => simp [resolveCombineSuccess]
    | resolveFail hpend => simp [resolveCombineFailure]

/-- C1: along every reachable execution, the primitive's state only moves
along the edges READY→COMBINING (update dispatching the combine),
COMBINING→COMBINED (successful resolution), COMBINING→FAILED (failed
resolution), and COMBINED→COMPLETE (the next update), or stays put; no
operation leaves FAILED, and once FAILED every update call returns the
primitive unchanged, with no error thrown and nothing appended to the
output command list. -/
theorem C1_primitive_state_machine (options : ConstructOptions) (s t : System)
    (hreach : Reachable options s) (hstep : Step s t) :
    stateEdge s.prim.state t.prim.state ∧
    (s.prim.state = PrimitiveState.FAILED → t.prim = s.prim) ∧
    (s.prim.state = PrimitiveState.FAILED → ∀ (context : Context) (frameState : FrameState),
      s.prim.update context frameState = (s.prim, emptyOutput)) := by
  have hinv := reachable_pending_iff options s hreach
  refine ⟨?_, ?_, fun hf context frameState => update_of_failed _ _ _ hf⟩
  · cases hstep with
    | update ctx fs =>
      rcases update_state_cases s.prim ctx fs with h | ⟨h1, h2⟩ | ⟨h1, h2⟩
      · exact Or.inl h.symm
      · exact Or.inr (Or.inl ⟨h1, h2⟩)
      · exact Or.inr (Or.inr (Or.inr (Or.inr ⟨h1, h2⟩)))
    | resolveOk result hpend =>
      exact Or.inr (Or.inr (Or.inl ⟨hinv.mp hpend, rfl⟩))
    | resolveFail hpend =>
      exact Or.inr (Or.inr (Or.inr (Or.inl ⟨hinv.mp hpend, rfl⟩)))
  · intro hf
    cases hstep with
    | update ctx fs =>
      show (s.prim.update ctx fs).1 = s.prim
      rw [update_of_failed s.prim ctx fs hf]
    | resolveOk result hpend =>
      exact absurd (hinv.mp hpend) (by rw [hf]; decide)
    | resolveFail hpend =>
      exact absurd (hinv.mp hpend) (by rw [hf]; decide)

/-- C1 witness: a concrete trace (construct, dispatch via update, failed
resolution) reaches FAILED, and the next update leaves the primitive
untouched with no effects. -/
theorem C1_primitive_state_machine_witness :
    (resolveCombineFailure
        ((initSystem ⟨some [⟨some 7⟩], some ⟨1, none, 0⟩, none, none, none⟩).prim.update
          ⟨true, [], []⟩ ⟨SceneMode.SCENE3D, true, false, 0⟩).1).update
        ⟨true, [], []⟩ ⟨SceneMode.SCENE3D, true, false, 0⟩ =
      (resolveCombineFailure
        ((initSystem ⟨some [⟨some 7⟩], some ⟨1, none, 0⟩, none, none, none⟩).prim.update
          ⟨true, [], []⟩ ⟨SceneMode.SCENE3D, true, false, 0⟩).1, emptyOutput) := by
  have hreach : Reachable ⟨some [⟨some 7⟩], some ⟨1, none, 0⟩, none, none, none⟩
      ⟨resolveCombineFailure
        ((initSystem ⟨some [⟨some 7⟩], some ⟨1, none, 0⟩, none, none, none⟩).prim.update
          ⟨true, [], []⟩ ⟨SceneMode.SCENE3D, true, false, 0⟩).1, false⟩ := by
    refine Relation.ReflTransGen.tail (Relation.ReflTransGen.tail Relation.ReflTransGen.refl
      (Step.update (initSystem ⟨some [⟨some 7⟩], some ⟨1, none, 0⟩, none, none, none⟩)
        ⟨true, [], []⟩ ⟨SceneMode.SCENE3D, true, false, 0⟩)) ?_
    exact Step.resolveFail _ (by decide)
  have h := C1_primitive_state_machine
    ⟨some [⟨some 7⟩], some ⟨1, none, 0⟩, none, none, none⟩
    ⟨resolveCombineFailure
      ((initSystem ⟨some [⟨some 7⟩], some ⟨1, none, 0⟩, none, none, none⟩).prim.update
        ⟨true, [], []⟩ ⟨SceneMode.SCENE3D, true, false, 0⟩).1, false⟩
    _ hreach
    (Step.update _ ⟨true, [], []⟩ ⟨SceneMode.SCENE3D, true, false, 0⟩)
  exact h.2.2 rfl ⟨true, [], []⟩ ⟨SceneMode.SCENE3D, true, false, 0⟩
